import Mathlib

/-!
Verification of the keyboard_handler repository (Unix implementation).

The development shallowly embeds the C++ code:
- KeyCode mirrors the enum in keyboard_handler_base.hpp.
- Key modifiers are the uint32 bitmask NONE = 0, SHIFT = 1, ALT = 2, CTRL = 4.
- Terminal byte sequences are lists of byte values (0..255); the C char type on
  Linux is signed, so signed comparisons from the source are made explicit via
  signedChar.
- parse_input mirrors KeyboardHandlerUnixImpl::parse_input from
  keyboard_handler_unix_impl.cpp lines 94-158.
- The callback registry mirrors KeyboardHandlerBase from keyboard_handler_base.cpp.
-/

namespace KeyboardHandler

/-- KeyCode is declared in keyboard_handler_base.hpp line 35 as an enum class with
underlying type uint32; it is modelled by its underlying numeric value. -/
abbrev KeyCode : Type := Nat

/-- KeyCode enumerator UNKNOWN (keyboard_handler_base.hpp lines 147-244, value 0). -/
def KeyCode.UNKNOWN : KeyCode := 0

/-- KeyCode enumerator EXCLAMATION_MARK (keyboard_handler_base.hpp lines 147-244, value 1). -/
def KeyCode.EXCLAMATION_MARK : KeyCode := 1

/-- KeyCode enumerator QUOTATION_MARK (keyboard_handler_base.hpp lines 147-244, value 2). -/
def KeyCode.QUOTATION_MARK : KeyCode := 2

/-- KeyCode enumerator HASHTAG_SIGN (keyboard_handler_base.hpp lines 147-244, value 3). -/
def KeyCode.HASHTAG_SIGN : KeyCode := 3

/-- KeyCode enumerator DOLLAR_SIGN (keyboard_handler_base.hpp lines 147-244, value 4). -/
def KeyCode.DOLLAR_SIGN : KeyCode := 4

/-- KeyCode enumerator PERCENT_SIGN (keyboard_handler_base.hpp lines 147-244, value 5). -/
def KeyCode.PERCENT_SIGN : KeyCode := 5

/-- KeyCode enumerator AMPERSAND (keyboard_handler_base.hpp lines 147-244, value 6). -/
def KeyCode.AMPERSAND : KeyCode := 6

/-- KeyCode enumerator APOSTROPHE (keyboard_handler_base.hpp lines 147-244, value 7). -/
def KeyCode.APOSTROPHE : KeyCode := 7

/-- KeyCode enumerator OPENING_PARENTHESIS (keyboard_handler_base.hpp lines 147-244, value 8). -/
def KeyCode.OPENING_PARENTHESIS : KeyCode := 8

/-- KeyCode enumerator CLOSING_PARENTHESIS (keyboard_handler_base.hpp lines 147-244, value 9). -/
def KeyCode.CLOSING_PARENTHESIS : KeyCode := 9

/-- KeyCode enumerator STAR (keyboard_handler_base.hpp lines 147-244, value 10). -/
def KeyCode.STAR : KeyCode := 10

/-- KeyCode enumerator PLUS (keyboard_handler_base.hpp lines 147-244, value 11). -/
def KeyCode.PLUS : KeyCode := 11

/-- KeyCode enumerator COMMA (keyboard_handler_base.hpp lines 147-244, value 12). -/
def KeyCode.COMMA : KeyCode := 12

/-- KeyCode enumerator MINUS (keyboard_handler_base.hpp lines 147-244, value 13). -/
def KeyCode.MINUS : KeyCode := 13

/-- KeyCode enumerator DOT (keyboard_handler_base.hpp lines 147-244, value 14). -/
def KeyCode.DOT : KeyCode := 14

/-- KeyCode enumerator RIGHT_SLASH (keyboard_handler_base.hpp lines 147-244, value 15). -/
def KeyCode.RIGHT_SLASH : KeyCode := 15

/-- KeyCode enumerator NUMBER_0 (keyboard_handler_base.hpp lines 147-244, value 16). -/
def KeyCode.NUMBER_0 : KeyCode := 16

/-- KeyCode enumerator NUMBER_1 (keyboard_handler_base.hpp lines 147-244, value 17). -/
def KeyCode.NUMBER_1 : KeyCode := 17

/-- KeyCode enumerator NUMBER_2 (keyboard_handler_base.hpp lines 147-244, value 18). -/
def KeyCode.NUMBER_2 : KeyCode := 18

/-- KeyCode enumerator NUMBER_3 (keyboard_handler_base.hpp lines 147-244, value 19). -/
def KeyCode.NUMBER_3 : KeyCode := 19

/-- KeyCode enumerator NUMBER_4 (keyboard_handler_base.hpp lines 147-244, value 20). -/
def KeyCode.NUMBER_4 : KeyCode := 20

/-- KeyCode enumerator NUMBER_5 (keyboard_handler_base.hpp lines 147-244, value 21). -/
def KeyCode.NUMBER_5 : KeyCode := 21

/-- KeyCode enumerator NUMBER_6 (keyboard_handler_base.hpp lines 147-244, value 22). -/
def KeyCode.NUMBER_6 : KeyCode := 22

/-- KeyCode enumerator NUMBER_7 (keyboard_handler_base.hpp lines 147-244, value 23). -/
def KeyCode.NUMBER_7 : KeyCode := 23

/-- KeyCode enumerator NUMBER_8 (keyboard_handler_base.hpp lines 147-244, value 24). -/
def KeyCode.NUMBER_8 : KeyCode := 24

/-- KeyCode enumerator NUMBER_9 (keyboard_handler_base.hpp lines 147-244, value 25). -/
def KeyCode.NUMBER_9 : KeyCode := 25

/-- KeyCode enumerator COLON (keyboard_handler_base.hpp lines 147-244, value 26). -/
def KeyCode.COLON : KeyCode := 26

/-- KeyCode enumerator SEMICOLON (keyboard_handler_base.hpp lines 147-244, value 27). -/
def KeyCode.SEMICOLON : KeyCode := 27

/-- KeyCode enumerator LEFT_ANGLE_BRACKET (keyboard_handler_base.hpp lines 147-244, value 28). -/
def KeyCode.LEFT_ANGLE_BRACKET : KeyCode := 28

/-- KeyCode enumerator EQUAL_SIGN (keyboard_handler_base.hpp lines 147-244, value 29). -/
def KeyCode.EQUAL_SIGN : KeyCode := 29

/-- KeyCode enumerator RIGHT_ANGLE_BRACKET (keyboard_handler_base.hpp lines 147-244, value 30). -/
def KeyCode.RIGHT_ANGLE_BRACKET : KeyCode := 30

/-- KeyCode enumerator QUESTION_MARK (keyboard_handler_base.hpp lines 147-244, value 31). -/
def KeyCode.QUESTION_MARK : KeyCode := 31

/-- KeyCode enumerator AT (keyboard_handler_base.hpp lines 147-244, value 32). -/
def KeyCode.AT : KeyCode := 32

/-- KeyCode enumerator LEFT_SQUARE_BRACKET (keyboard_handler_base.hpp lines 147-244, value 33). -/
def KeyCode.LEFT_SQUARE_BRACKET : KeyCode := 33

/-- KeyCode enumerator BACK_SLASH (keyboard_handler_base.hpp lines 147-244, value 34). -/
def KeyCode.BACK_SLASH : KeyCode := 34

/-- KeyCode enumerator RIGHT_SQUARE_BRACKET (keyboard_handler_base.hpp lines 147-244, value 35). -/
def KeyCode.RIGHT_SQUARE_BRACKET : KeyCode := 35

/-- KeyCode enumerator CARET (keyboard_handler_base.hpp lines 147-244, value 36). -/
def KeyCode.CARET : KeyCode := 36

/-- KeyCode enumerator UNDERSCORE_SIGN (keyboard_handler_base.hpp lines 147-244, value 37). -/
def KeyCode.UNDERSCORE_SIGN : KeyCode := 37

/-- KeyCode enumerator GRAVE_ACCENT_SIGN (keyboard_handler_base.hpp lines 147-244, value 38). -/
def KeyCode.GRAVE_ACCENT_SIGN : KeyCode := 38

/-- KeyCode enumerator A (keyboard_handler_base.hpp lines 147-244, value 39). -/
def KeyCode.A : KeyCode := 39

/-- KeyCode enumerator B (keyboard_handler_base.hpp lines 147-244, value 40). -/
def KeyCode.B : KeyCode := 40

/-- KeyCode enumerator C (keyboard_handler_base.hpp lines 147-244, value 41). -/
def KeyCode.C : KeyCode := 41

/-- KeyCode enumerator D (keyboard_handler_base.hpp lines 147-244, value 42). -/
def KeyCode.D : KeyCode := 42

/-- KeyCode enumerator E (keyboard_handler_base.hpp lines 147-244, value 43). -/
def KeyCode.E : KeyCode := 43

/-- KeyCode enumerator F (keyboard_handler_base.hpp lines 147-244, value 44). -/
def KeyCode.F : KeyCode := 44

/-- KeyCode enumerator G (keyboard_handler_base.hpp lines 147-244, value 45). -/
def KeyCode.G : KeyCode := 45

/-- KeyCode enumerator H (keyboard_handler_base.hpp lines 147-244, value 46). -/
def KeyCode.H : KeyCode := 46

/-- KeyCode enumerator I (keyboard_handler_base.hpp lines 147-244, value 47). -/
def KeyCode.I : KeyCode := 47

/-- KeyCode enumerator J (keyboard_handler_base.hpp lines 147-244, value 48). -/
def KeyCode.J : KeyCode := 48

/-- KeyCode enumerator K (keyboard_handler_base.hpp lines 147-244, value 49). -/
def KeyCode.K : KeyCode := 49

/-- KeyCode enumerator L (keyboard_handler_base.hpp lines 147-244, value 50). -/
def KeyCode.L : KeyCode := 50

/-- KeyCode enumerator M (keyboard_handler_base.hpp lines 147-244, value 51). -/
def KeyCode.M : KeyCode := 51

/-- KeyCode enumerator N (keyboard_handler_base.hpp lines 147-244, value 52). -/
def KeyCode.N : KeyCode := 52

/-- KeyCode enumerator O (keyboard_handler_base.hpp lines 147-244, value 53). -/
def KeyCode.O : KeyCode := 53

/-- KeyCode enumerator P (keyboard_handler_base.hpp lines 147-244, value 54). -/
def KeyCode.P : KeyCode := 54

/-- KeyCode enumerator Q (keyboard_handler_base.hpp lines 147-244, value 55). -/
def KeyCode.Q : KeyCode := 55

/-- KeyCode enumerator R (keyboard_handler_base.hpp lines 147-244, value 56). -/
def KeyCode.R : KeyCode := 56

/-- KeyCode enumerator S (keyboard_handler_base.hpp lines 147-244, value 57). -/
def KeyCode.S : KeyCode := 57

/-- KeyCode enumerator T (keyboard_handler_base.hpp lines 147-244, value 58). -/
def KeyCode.T : KeyCode := 58

/-- KeyCode enumerator U (keyboard_handler_base.hpp lines 147-244, value 59). -/
def KeyCode.U : KeyCode := 59

/-- KeyCode enumerator V (keyboard_handler_base.hpp lines 147-244, value 60). -/
def KeyCode.V : KeyCode := 60

/-- KeyCode enumerator W (keyboard_handler_base.hpp lines 147-244, value 61). -/
def KeyCode.W : KeyCode := 61

/-- KeyCode enumerator X (keyboard_handler_base.hpp lines 147-244, value 62). -/
def KeyCode.X : KeyCode := 62

/-- KeyCode enumerator Y (keyboard_handler_base.hpp lines 147-244, value 63). -/
def KeyCode.Y : KeyCode := 63

/-- KeyCode enumerator Z (keyboard_handler_base.hpp lines 147-244, value 64). -/
def KeyCode.Z : KeyCode := 64

/-- KeyCode enumerator LEFT_CURLY_BRACKET (keyboard_handler_base.hpp lines 147-244, value 65). -/
def KeyCode.LEFT_CURLY_BRACKET : KeyCode := 65

/-- KeyCode enumerator VERTICAL_BAR (keyboard_handler_base.hpp lines 147-244, value 66). -/
def KeyCode.VERTICAL_BAR : KeyCode := 66

/-- KeyCode enumerator RIGHT_CURLY_BRACKET (keyboard_handler_base.hpp lines 147-244, value 67). -/
def KeyCode.RIGHT_CURLY_BRACKET : KeyCode := 67

/-- KeyCode enumerator TILDA (keyboard_handler_base.hpp lines 147-244, value 68). -/
def KeyCode.TILDA : KeyCode := 68

/-- KeyCode enumerator CURSOR_UP (keyboard_handler_base.hpp lines 147-244, value 69). -/
def KeyCode.CURSOR_UP : KeyCode := 69

/-- KeyCode enumerator CURSOR_DOWN (keyboard_handler_base.hpp lines 147-244, value 70). -/
def KeyCode.CURSOR_DOWN : KeyCode := 70

/-- KeyCode enumerator CURSOR_LEFT (keyboard_handler_base.hpp lines 147-244, value 71). -/
def KeyCode.CURSOR_LEFT : KeyCode := 71

/-- KeyCode enumerator CURSOR_RIGHT (keyboard_handler_base.hpp lines 147-244, value 72). -/
def KeyCode.CURSOR_RIGHT : KeyCode := 72

/-- KeyCode enumerator ESCAPE (keyboard_handler_base.hpp lines 147-244, value 73). -/
def KeyCode.ESCAPE : KeyCode := 73

/-- KeyCode enumerator SPACE (keyboard_handler_base.hpp lines 147-244, value 74). -/
def KeyCode.SPACE : KeyCode := 74

/-- KeyCode enumerator ENTER (keyboard_handler_base.hpp lines 147-244, value 75). -/
def KeyCode.ENTER : KeyCode := 75

/-- KeyCode enumerator BACK_SPACE (keyboard_handler_base.hpp lines 147-244, value 76). -/
def KeyCode.BACK_SPACE : KeyCode := 76

/-- KeyCode enumerator DELETE_KEY (keyboard_handler_base.hpp lines 147-244, value 77). -/
def KeyCode.DELETE_KEY : KeyCode := 77

/-- KeyCode enumerator END (keyboard_handler_base.hpp lines 147-244, value 78). -/
def KeyCode.END : KeyCode := 78

/-- KeyCode enumerator PG_DOWN (keyboard_handler_base.hpp lines 147-244, value 79). -/
def KeyCode.PG_DOWN : KeyCode := 79

/-- KeyCode enumerator PG_UP (keyboard_handler_base.hpp lines 147-244, value 80). -/
def KeyCode.PG_UP : KeyCode := 80

/-- KeyCode enumerator HOME (keyboard_handler_base.hpp lines 147-244, value 81). -/
def KeyCode.HOME : KeyCode := 81

/-- KeyCode enumerator INSERT (keyboard_handler_base.hpp lines 147-244, value 82). -/
def KeyCode.INSERT : KeyCode := 82

/-- KeyCode enumerator F1 (keyboard_handler_base.hpp lines 147-244, value 83). -/
def KeyCode.F1 : KeyCode := 83

/-- KeyCode enumerator F2 (keyboard_handler_base.hpp lines 147-244, value 84). -/
def KeyCode.F2 : KeyCode := 84

/-- KeyCode enumerator F3 (keyboard_handler_base.hpp lines 147-244, value 85). -/
def KeyCode.F3 : KeyCode := 85

/-- KeyCode enumerator F4 (keyboard_handler_base.hpp lines 147-244, value 86). -/
def KeyCode.F4 : KeyCode := 86

/-- KeyCode enumerator F5 (keyboard_handler_base.hpp lines 147-244, value 87). -/
def KeyCode.F5 : KeyCode := 87

/-- KeyCode enumerator F6 (keyboard_handler_base.hpp lines 147-244, value 88). -/
def KeyCode.F6 : KeyCode := 88

/-- KeyCode enumerator F7 (keyboard_handler_base.hpp lines 147-244, value 89). -/
def KeyCode.F7 : KeyCode := 89

/-- KeyCode enumerator F8 (keyboard_handler_base.hpp lines 147-244, value 90). -/
def KeyCode.F8 : KeyCode := 90

/-- KeyCode enumerator F9 (keyboard_handler_base.hpp lines 147-244, value 91). -/
def KeyCode.F9 : KeyCode := 91

/-- KeyCode enumerator F10 (keyboard_handler_base.hpp lines 147-244, value 92). -/
def KeyCode.F10 : KeyCode := 92

/-- KeyCode enumerator F11 (keyboard_handler_base.hpp lines 147-244, value 93). -/
def KeyCode.F11 : KeyCode := 93

/-- KeyCode enumerator F12 (keyboard_handler_base.hpp lines 147-244, value 94). -/
def KeyCode.F12 : KeyCode := 94

/-- KeyCode enumerator END_OF_KEY_CODE_ENUM (keyboard_handler_base.hpp lines 147-244, value 95). -/
def KeyCode.END_OF_KEY_CODE_ENUM : KeyCode := 95

/-- KeyModifiers bitmask values from keyboard_handler_base.hpp line 42:
NONE = 0, SHIFT = 1, ALT = 1 shl 1, CTRL = 1 shl 2. The bitmask itself is a Nat
(the C++ enum has underlying type uint32), combined with Nat bitwise or,
mirroring the overloaded pipe operator in keyboard_handler_base.cpp. -/
def KeyModifiers.NONE : Nat := 0

/-- SHIFT modifier bit. -/
def KeyModifiers.SHIFT : Nat := 1

/-- ALT modifier bit. -/
def KeyModifiers.ALT : Nat := 2

/-- CTRL modifier bit. -/
def KeyModifiers.CTRL : Nat := 4

/-- KeyMap struct from keyboard_handler_unix_impl.hpp lines 112-116: a KeyCode and
its expected terminal byte sequence. -/
structure KeyMap where
  inner_code : KeyCode
  terminal_sequence : List Nat
deriving DecidableEq, Repr

/-- Rows 1 to 24 of the static key map (see DEFAULT_STATIC_KEY_MAP). -/
def keyMapRows1 : List KeyMap := [
  ⟨KeyCode.EXCLAMATION_MARK, [33]⟩,
  ⟨KeyCode.QUOTATION_MARK, [34]⟩,
  ⟨KeyCode.HASHTAG_SIGN, [35]⟩,
  ⟨KeyCode.DOLLAR_SIGN, [36]⟩,
  ⟨KeyCode.PERCENT_SIGN, [37]⟩,
  ⟨KeyCode.AMPERSAND, [38]⟩,
  ⟨KeyCode.APOSTROPHE, [39]⟩,
  ⟨KeyCode.OPENING_PARENTHESIS, [40]⟩,
  ⟨KeyCode.CLOSING_PARENTHESIS, [41]⟩,
  ⟨KeyCode.STAR, [42]⟩,
  ⟨KeyCode.PLUS, [43]⟩,
  ⟨KeyCode.COMMA, [44]⟩,
  ⟨KeyCode.MINUS, [45]⟩,
  ⟨KeyCode.DOT, [46]⟩,
  ⟨KeyCode.RIGHT_SLASH, [47]⟩,
  ⟨KeyCode.NUMBER_0, [48]⟩,
  ⟨KeyCode.NUMBER_1, [49]⟩,
  ⟨KeyCode.NUMBER_2, [50]⟩,
  ⟨KeyCode.NUMBER_3, [51]⟩,
  ⟨KeyCode.NUMBER_4, [52]⟩,
  ⟨KeyCode.NUMBER_5, [53]⟩,
  ⟨KeyCode.NUMBER_6, [54]⟩,
  ⟨KeyCode.NUMBER_7, [55]⟩,
  ⟨KeyCode.NUMBER_8, [56]⟩]

/-- Rows 25 to 48 of the static key map (see DEFAULT_STATIC_KEY_MAP). -/
def keyMapRows2 : List KeyMap := [
  ⟨KeyCode.NUMBER_9, [57]⟩,
  ⟨KeyCode.COLON, [58]⟩,
  ⟨KeyCode.SEMICOLON, [59]⟩,
  ⟨KeyCode.LEFT_ANGLE_BRACKET, [60]⟩,
  ⟨KeyCode.EQUAL_SIGN, [61]⟩,
  ⟨KeyCode.RIGHT_ANGLE_BRACKET, [62]⟩,
  ⟨KeyCode.QUESTION_MARK, [63]⟩,
  ⟨KeyCode.AT, [64]⟩,
  ⟨KeyCode.LEFT_SQUARE_BRACKET, [91]⟩,
  ⟨KeyCode.BACK_SLASH, [92]⟩,
  ⟨KeyCode.RIGHT_SQUARE_BRACKET, [93]⟩,
  ⟨KeyCode.CARET, [94]⟩,
  ⟨KeyCode.UNDERSCORE_SIGN, [95]⟩,
  ⟨KeyCode.GRAVE_ACCENT_SIGN, [96]⟩,
  ⟨KeyCode.A, [97]⟩,
  ⟨KeyCode.B, [98]⟩,
  ⟨KeyCode.C, [99]⟩,
  ⟨KeyCode.D, [100]⟩,
  ⟨KeyCode.E, [101]⟩,
  ⟨KeyCode.F, [102]⟩,
  ⟨KeyCode.G, [103]⟩,
  ⟨KeyCode.H, [104]⟩,
  ⟨KeyCode.I, [105]⟩,
  ⟨KeyCode.J, [106]⟩]

/-- Rows 49 to 72 of the static key map (see DEFAULT_STATIC_KEY_MAP). -/
def keyMapRows3 : List KeyMap := [
  ⟨KeyCode.K, [107]⟩,
  ⟨KeyCode.L, [108]⟩,
  ⟨KeyCode.M, [109]⟩,
  ⟨KeyCode.N, [110]⟩,
  ⟨KeyCode.O, [111]⟩,
  ⟨KeyCode.P, [112]⟩,
  ⟨KeyCode.Q, [113]⟩,
  ⟨KeyCode.R, [114]⟩,
  ⟨KeyCode.S, [115]⟩,
  ⟨KeyCode.T, [116]⟩,
  ⟨KeyCode.U, [117]⟩,
  ⟨KeyCode.V, [118]⟩,
  ⟨KeyCode.W, [119]⟩,
  ⟨KeyCode.X, [120]⟩,
  ⟨KeyCode.Y, [121]⟩,
  ⟨KeyCode.Z, [122]⟩,
  ⟨KeyCode.LEFT_CURLY_BRACKET, [123]⟩,
  ⟨KeyCode.VERTICAL_BAR, [124]⟩,
  ⟨KeyCode.RIGHT_CURLY_BRACKET, [125]⟩,
  ⟨KeyCode.TILDA, [126]⟩,
  ⟨KeyCode.CURSOR_UP, [27, 91, 65]⟩,
  ⟨KeyCode.CURSOR_DOWN, [27, 91, 66]⟩,
  ⟨KeyCode.CURSOR_RIGHT, [27, 91, 67]⟩,
  ⟨KeyCode.CURSOR_LEFT, [27, 91, 68]⟩]

/-- Rows 73 to 94 of the static key map (see DEFAULT_STATIC_KEY_MAP). -/
def keyMapRows4 : List KeyMap := [
  ⟨KeyCode.ESCAPE, [27]⟩,
  ⟨KeyCode.SPACE, [32]⟩,
  ⟨KeyCode.ENTER, [10]⟩,
  ⟨KeyCode.BACK_SPACE, [127]⟩,
  ⟨KeyCode.DELETE_KEY, [27, 91, 51, 126]⟩,
  ⟨KeyCode.END, [27, 91, 70]⟩,
  ⟨KeyCode.PG_DOWN, [27, 91, 54, 126]⟩,
  ⟨KeyCode.PG_UP, [27, 91, 53, 126]⟩,
  ⟨KeyCode.HOME, [27, 91, 72]⟩,
  ⟨KeyCode.INSERT, [27, 91, 50, 126]⟩,
  ⟨KeyCode.F1, [27, 79, 80]⟩,
  ⟨KeyCode.F2, [27, 79, 81]⟩,
  ⟨KeyCode.F3, [27, 79, 82]⟩,
  ⟨KeyCode.F4, [27, 79, 83]⟩,
  ⟨KeyCode.F5, [27, 91, 49, 53, 126]⟩,
  ⟨KeyCode.F6, [27, 91, 49, 55, 126]⟩,
  ⟨KeyCode.F7, [27, 91, 49, 56, 126]⟩,
  ⟨KeyCode.F8, [27, 91, 49, 57, 126]⟩,
  ⟨KeyCode.F9, [27, 91, 50, 48, 126]⟩,
  ⟨KeyCode.F10, [27, 91, 50, 49, 126]⟩,
  ⟨KeyCode.F11, [27, 91, 50, 51, 126]⟩,
  ⟨KeyCode.F12, [27, 91, 50, 52, 126]⟩]

/-- Modelled from the spec: the repository source under src/ declares
DEFAULT_STATIC_KEY_MAP (keyboard_handler_unix_impl.hpp line 120) but the
translation unit with the table initializer (pure data, out of scope per spec
section 1) is not among the provided sources. Per spec section 3 the table is a
static bidirectional mapping between a Unix terminal byte string and a KeyCode,
with one native sequence per non-sentinel KeyCode. Sequences follow the standard
Unix terminal encodings named by the spec scenarios (printable ASCII characters
map to their single byte, with letters stored lowercase since case is expressed
via the SHIFT modifier; ESC is byte 27; ENTER is the newline byte; BACK_SPACE is
byte 127; navigation and function keys use the common xterm escape sequences
starting with byte 27). Sentinels UNKNOWN and END_OF_KEY_CODE_ENUM have no entry. -/
def DEFAULT_STATIC_KEY_MAP : List KeyMap :=
  keyMapRows1 ++ keyMapRows2 ++ keyMapRows3 ++ keyMapRows4

/-- Construction of a std::string from a char pointer stops at the first NUL
byte: models the line std::string buff_to_search = buff (unix impl line 117). -/
def cstr (l : List Nat) : List Nat := l.takeWhile (fun b => b ≠ 0)

/-- Indexing a std::string with operator bracket: position size() reads the
terminating NUL character (value 0); used only at index 0 in the source. -/
def strGet (s : List Nat) (i : Nat) : Nat := s.getD i 0

/-- The value of a byte reinterpreted as the (signed) C char type on Linux:
bytes 128..255 are negative. Models static_cast to signed char and the plain
char comparisons in parse_input. -/
def signedChar (b : Nat) : Int := if b < 128 then (b : Int) else (b : Int) - 256

/-- The lookup key_codes_map_.find(s): key_codes_map_ is an unordered_map built
in the constructor (unix impl lines 211-214) by emplacing every table row in
order; emplace never overwrites, so a find is equivalent to the first table row
whose terminal_sequence equals s. -/
def key_codes_map_find (s : List Nat) : Option KeyCode :=
  (DEFAULT_STATIC_KEY_MAP.find? (fun e => e.terminal_sequence = s)).map
    (fun e => e.inner_code)

/-- KeyboardHandlerUnixImpl::parse_input (unix impl lines 94-158). buff is the
raw byte buffer, read_bytes the number of bytes read. Returns the pressed
KeyCode and the modifier bitmask.
Step by step against the source:
- line 117: buff_to_search is the C string read from buff (stops at NUL);
- lines 121-125: a two byte read whose first raw byte is 27 sets ALT, replaces
  buff_to_search by the one character string holding the second raw byte, and
  sets bytes_in_keycode to 1;
- lines 128-133: with bytes_in_keycode 1 and the first search character in
  65..90 (an uppercase letter; bytes above 127 are negative chars and cannot
  satisfy the comparison), fold to lowercase (add 32) and or SHIFT in;
- lines 136-139: look the search string up, keeping UNKNOWN when absent;
- lines 142-154: if still UNKNOWN, bytes_in_keycode is 1 and the first search
  character as a signed char lies in 0..26, replace the search string by the
  single character value plus 96, or CTRL in, and look up again. -/
def parse_input (buff : List Nat) (read_bytes : Nat) : KeyCode × Nat :=
  let s1 : List Nat × Nat × Nat :=
    if read_bytes = 2 ∧ strGet buff 0 = 27 then
      ([strGet buff 1], 1, KeyModifiers.ALT)
    else
      (cstr buff, read_bytes, KeyModifiers.NONE)
  let buff_to_search := s1.1
  let bytes_in_keycode := s1.2.1
  let key_modifiers := s1.2.2
  let s2 : List Nat × Nat :=
    if bytes_in_keycode = 1 ∧ 65 ≤ strGet buff_to_search 0 ∧
        strGet buff_to_search 0 ≤ 90 then
      ([strGet buff_to_search 0 + 32], key_modifiers ||| KeyModifiers.SHIFT)
    else
      (buff_to_search, key_modifiers)
  let buff_to_search₂ := s2.1
  let key_modifiers₂ := s2.2
  let pressed_key_code : KeyCode :=
    match key_codes_map_find buff_to_search₂ with
    | some k => k
    | none => KeyCode.UNKNOWN
  if pressed_key_code = KeyCode.UNKNOWN ∧ bytes_in_keycode = 1 ∧
      0 ≤ signedChar (strGet buff_to_search₂ 0) ∧
      signedChar (strGet buff_to_search₂ 0) ≤ 26 then
    let buff_to_search₃ := [strGet buff_to_search₂ 0 + 96]
    let key_modifiers₃ := key_modifiers₂ ||| KeyModifiers.CTRL
    match key_codes_map_find buff_to_search₃ with
    | some k => (k, key_modifiers₃)
    | none => (pressed_key_code, key_modifiers₃)
  else
    (pressed_key_code, key_modifiers₂)

/-- KeyboardHandlerUnixImpl::get_terminal_sequence (unix impl lines 399-412):
scan the key code map for the first entry whose value is key_code and return its
sequence, or the empty string. The map entries are exactly the table rows and
each KeyCode occurs in at most one row, so scanning the table in row order is
faithful regardless of the unordered_map iteration order. -/
def get_terminal_sequence (key_code : KeyCode) : List Nat :=
  match DEFAULT_STATIC_KEY_MAP.find? (fun e => e.inner_code = key_code) with
  | some e => e.terminal_sequence
  | none => []

/-- The invalid callback handle (keyboard_handler_base.hpp line 53). -/
def invalid_handle : Nat := 0

/-- Size of the callback_handle_t type, which is uint64. -/
def handleModulus : Nat := 18446744073709551616

/-- KeyAndModifiers struct (keyboard_handler_base.hpp lines 91-114); its
operator== compares both fields, which is exactly structure equality here. -/
structure KeyAndModifiers where
  key_code : KeyCode
  key_modifiers : Nat
deriving DecidableEq, Repr

/-- callback_data struct (keyboard_handler_base.hpp lines 82-86). The stored
std::function is modelled by an opaque numeric identifier. -/
structure callback_data where
  handle : Nat
  callback : Nat
deriving DecidableEq, Repr

/-- The per instance KeyboardHandlerBase state: the is_init_succeed_ flag and
the callbacks_ unordered_multimap (keyboard_handler_base.hpp lines 136-141),
the latter modelled as the list of its nodes in container iteration order. -/
structure HandlerState where
  is_init_succeed_ : Bool
  callbacks_ : List (KeyAndModifiers × callback_data)
deriving DecidableEq, Repr

/-- KeyboardHandlerBase::get_new_handle (keyboard_handler_base.cpp lines
191-196): atomically increments the process wide static uint64 counter and
returns the old value plus one; uint64 arithmetic wraps modulo 2 to the 64.
Takes and returns the counter explicitly: result is (returned handle, new
counter value). -/
def get_new_handle (handle_count : Nat) : Nat × Nat :=
  ((handle_count + 1) % handleModulus, (handle_count + 1) % handleModulus)

/-- Insertion of one node into the callbacks_ unordered_multimap (the emplace on
keyboard_handler_base.cpp line 47), modelled after the libstdc++
std::unordered_multimap this code is built against: a node whose key already has
equivalent nodes in the container is linked immediately in front of the existing
group, so iteration and equal_range meet equal-key nodes newest first; a node
with a fresh key is modelled as appended at the end (the container leaves the
relative position of distinct keys unspecified and nothing proved below depends
on it). -/
def emplaceMulti (l : List (KeyAndModifiers × callback_data)) (k : KeyAndModifiers)
    (d : callback_data) : List (KeyAndModifiers × callback_data) :=
  match l with
  | [] => [(k, d)]
  | e :: rest => if e.1 = k then (k, d) :: e :: rest else e :: emplaceMulti rest k d

/-- KeyboardHandlerBase::add_key_press_callback (keyboard_handler_base.cpp lines
33-50). The callback argument is none when the std::function is empty
(nullptr). handle_count is the static counter of get_new_handle, threaded
explicitly because it is process wide. Result: (returned handle, new handler
state, new counter value). -/
def add_key_press_callback (st : HandlerState) (handle_count : Nat)
    (callback : Option Nat) (key_code : KeyCode) (key_modifiers : Nat) :
    Nat × HandlerState × Nat :=
  match callback with
  | none => (invalid_handle, st, handle_count)
  | some cb =>
    if st.is_init_succeed_ = false then (invalid_handle, st, handle_count)
    else
      let r := get_new_handle handle_count
      (r.1,
       ⟨st.is_init_succeed_,
        emplaceMulti st.callbacks_ ⟨key_code, key_modifiers⟩ ⟨r.1, cb⟩⟩,
       r.2)

/-- Erase of the first node whose callback_data handle equals the argument, in
container iteration order (the loop of delete_key_press_callback). -/
def eraseFirstHandle (l : List (KeyAndModifiers × callback_data)) (handle : Nat) :
    List (KeyAndModifiers × callback_data) :=
  match l with
  | [] => []
  | e :: rest =>
    if e.2.handle = handle then rest else e :: eraseFirstHandle rest handle

/-- KeyboardHandlerBase::delete_key_press_callback (keyboard_handler_base.cpp
lines 174-185): scan callbacks_ and erase the first entry carrying the handle;
when no entry matches the loop falls through and the state is unchanged. The
C++ function is noexcept and total, as is this model. -/
def delete_key_press_callback (st : HandlerState) (handle : Nat) : HandlerState :=
  ⟨st.is_init_succeed_, eraseFirstHandle st.callbacks_ handle⟩

/-- The dispatch step of the reader thread (keyboard_handler_unix_impl.cpp lines
321-327): equal_range over callbacks_ with the exact KeyAndModifiers pair and
invocation of every callback in the group, in group iteration order. Equal-key
nodes are adjacent in the container, so the group in iteration order is the
sublist of nodes carrying exactly that key. Returns the callback_data of the
invoked callbacks in invocation order. -/
def dispatch (st : HandlerState) (key_and_mods : KeyAndModifiers) :
    List callback_data :=
  (st.callbacks_.filter (fun e => e.1 = key_and_mods)).map (fun e => e.2)

/-- One iteration of key_handler_thread_ with read_bytes positive
(keyboard_handler_unix_impl.cpp lines 295-328): parse the chunk, then invoke
every callback registered for exactly the parsed pair, passing it the parsed
key code and modifiers. Returns one (key code, modifiers, handle) triple per
invocation, in invocation order. -/
def processChunk (st : HandlerState) (buff : List Nat) (read_bytes : Nat) :
    List (KeyCode × Nat × Nat) :=
  let r := parse_input buff read_bytes
  (dispatch st ⟨r.1, r.2⟩).map (fun d => (r.1, r.2, d.handle))

/-- The C++ exception classes thrown by the unix constructor. -/
inductive CtorError where
  | invalid_argument
  | runtime_error
deriving DecidableEq, Repr

/-- Outcomes of the collaborator calls made by the unix constructor
(keyboard_handler_unix_impl.cpp lines 176-267): whether each passed function is
empty, and how each underlying call would report. -/
structure UnixEnv where
  read_fn_null : Bool
  isatty_fn_null : Bool
  tcgetattr_fn_null : Bool
  tcsetattr_fn_null : Bool
  isatty_result : Bool
  tcgetattr_ok : Bool
  signal_install_ok : Bool
  tcsetattr_ok : Bool
deriving DecidableEq, Repr

/-- Control flow of the KeyboardHandlerUnixImpl constructor
(keyboard_handler_unix_impl.cpp lines 176-352): an empty collaborator function
throws invalid_argument; when isatty reports that stdin is not a terminal the
constructor prints a diagnostic and returns normally with is_init_succeed_
still at its initializer false and no callbacks; a failing tcgetattr, failing
signal handler installation (when requested) or failing tcsetattr throws
runtime_error; otherwise is_init_succeed_ is set to true and the reader thread
is started. -/
def unixConstruct (env : UnixEnv) (install_signal_handler : Bool) :
    Except CtorError HandlerState :=
  if env.read_fn_null then .error .invalid_argument
  else if env.isatty_fn_null then .error .invalid_argument
  else if env.tcgetattr_fn_null then .error .invalid_argument
  else if env.tcsetattr_fn_null then .error .invalid_argument
  else if env.isatty_result = false then .ok ⟨false, []⟩
  else if env.tcgetattr_ok = false then .error .runtime_error
  else if install_signal_handler ∧ env.signal_install_ok = false then
    .error .runtime_error
  else if env.tcsetattr_ok = false then .error .runtime_error
  else .ok ⟨true, []⟩

/-- The previous SIGINT dispositions distinguished by on_signal
(keyboard_handler_unix_impl.cpp lines 43-65). -/
inductive SigDisposition where
  | dfl
  | ign
  | err
  | custom
deriving DecidableEq, Repr

/-- The process wide events whose code touches the static exit_ flag
(keyboard_handler_unix_impl.cpp line 25): construction (lines 176-352, which
never writes exit_), destruction (line 376, exit_ = true), and on_signal (lines
43-58: with previous disposition SIG_DFL the process terminates via _exit
without writing the flag, in every other case exit_ = true). -/
inductive ExitEvent where
  | construct (install_signal_handler : Bool)
  | destruct
  | on_signal (old_disposition : SigDisposition)
deriving DecidableEq, Repr

/-- Effect of one event on the static exit_ flag. -/
def stepExit (e : ExitEvent) (exitFlag : Bool) : Bool :=
  match e with
  | .construct _ => exitFlag
  | .destruct => true
  | .on_signal old => if old = .dfl then exitFlag else true

/-- Value of exit_ after a sequence of events, starting from its static
initializer false (keyboard_handler_unix_impl.cpp line 25). -/
def runExit (events : List ExitEvent) : Bool :=
  events.foldl (fun x e => stepExit e x) false

/-- Number of body executions of the do-while reader loop
(keyboard_handler_unix_impl.cpp lines 281-329) from iteration i on: each
execution runs the body once and then stops as soon as the load of exit_ at the
end of that iteration (exitAt i) reports true. fuel bounds the modelled run. -/
def doWhileIterations (exitAt : Nat → Bool) (i fuel : Nat) : Nat :=
  match fuel with
  | 0 => 0
  | fuel' + 1 =>
    1 + (if exitAt i then 0 else doWhileIterations exitAt (i + 1) fuel')

/-- Repeated registration: fold add_key_press_callback with a non-empty callback
over a list of key and modifier pairs, threading handler state and the process
wide counter. -/
def addAll (s : HandlerState × Nat) (ks : List KeyAndModifiers) :
    HandlerState × Nat :=
  match ks with
  | [] => s
  | k :: rest =>
    let r := add_key_press_callback s.1 s.2 (some 0) k.key_code k.key_modifiers
    addAll (r.2.1, r.2.2) rest

/-- The handles that the successive registrations of addAll starting at counter
value c assign to the registrations whose key equals k, in registration order:
absent counter wrap, registration number i receives handle c + i + 1. -/
def assignedHandles (ks : List KeyAndModifiers) (c : Nat) (k : KeyAndModifiers) :
    List Nat :=
  match ks with
  | [] => []
  | k' :: rest => (if k' = k then [c + 1] else []) ++ assignedHandles rest (c + 1) k

/-! Theorems. -/

set_option maxRecDepth 100000 in
/-- C1: for every row of the sequence table (every row is for a key code other
than the sentinels UNKNOWN and END_OF_KEY_CODE_ENUM), parse_input applied to
the native terminal sequence returned by get_terminal_sequence for that key
code, with its byte length, returns exactly that key code together with
KeyModifiers NONE. -/
theorem parse_input_roundtrips_get_terminal_sequence :
    ∀ e ∈ DEFAULT_STATIC_KEY_MAP,
      e.inner_code ≠ KeyCode.UNKNOWN →
      e.inner_code ≠ KeyCode.END_OF_KEY_CODE_ENUM →
      parse_input (get_terminal_sequence e.inner_code)
          (get_terminal_sequence e.inner_code).length
        = (e.inner_code, KeyModifiers.NONE) := by
  decide

/-- Witness for C1 at the table row of the letter a. -/
theorem parse_input_roundtrips_get_terminal_sequence_witness :
    parse_input (get_terminal_sequence KeyCode.A)
        (get_terminal_sequence KeyCode.A).length
      = (KeyCode.A, KeyModifiers.NONE) :=
  parse_input_roundtrips_get_terminal_sequence ⟨KeyCode.A, [97]⟩
    (by decide) (by decide) (by decide)

/-- C2 counterexample: the one-code chunk holding the single byte 0 has a value
outside the range 1-26, yet parse_input runs the CTRL fallback on it (the code
guards the fallback with a signed comparison value between 0 and 26, and the
NUL byte also truncates the searched string to empty so the first lookup
fails): the result carries CTRL and is the grave accent key, refuting the
claim that a one-code chunk with value outside 1-26 never acquires CTRL. -/
theorem parse_input_nul_acquires_ctrl :
    parse_input [0] 1 = (KeyCode.GRAVE_ACCENT_SIGN, KeyModifiers.CTRL) ∧
    (parse_input [0] 1).2 &&& KeyModifiers.CTRL ≠ 0 ∧
    ¬(1 ≤ 0 ∧ 0 ≤ 26) := by
  decide

set_option maxRecDepth 100000 in
/-- C2 amended: for a one-code chunk of byte b, parse_input acquires CTRL
through the fallback exactly when the first lookup fails and the byte value is
at most 26 (as a signed char, between 0 and 26) - so the NUL byte 0 also
acquires CTRL; and whenever b lies in 1-26 and the one-byte string is not
itself a table sequence, the result is the key code whose terminal sequence is
the lowercase letter with value b + 96, with exactly CTRL set. -/
theorem parse_input_ctrl_fallback_characterization :
    (∀ b < 256,
      ((parse_input [b] 1).2 &&& KeyModifiers.CTRL ≠ 0) ↔
        (key_codes_map_find (cstr [b]) = none ∧ b ≤ 26)) ∧
    (∀ b < 256, 1 ≤ b → b ≤ 26 → key_codes_map_find [b] = none →
      get_terminal_sequence (parse_input [b] 1).1 = [b + 96] ∧
      (parse_input [b] 1).2 = KeyModifiers.CTRL) :=
  ⟨by decide, by decide⟩

/-- Witness for the amended C2 at byte 3 (CTRL plus the letter c). -/
theorem parse_input_ctrl_fallback_characterization_witness :
    get_terminal_sequence (parse_input [3] 1).1 = [3 + 96] ∧
    (parse_input [3] 1).2 = KeyModifiers.CTRL :=
  parse_input_ctrl_fallback_characterization.2 3 (by decide)
    (by decide) (by decide) (by decide)

set_option maxRecDepth 100000 in
/-- C3: a two-code chunk whose first code is the escape prefix 27 parses to the
same key code as the one-code chunk of the second code alone, with ALT or-ed
into whatever modifier mask the single-code interpretation produces. -/
theorem parse_input_alt_prefix :
    ∀ c < 256,
      parse_input [27, c] 2
        = ((parse_input [c] 1).1, KeyModifiers.ALT ||| (parse_input [c] 1).2) := by
  decide

/-- Witness for C3 at the chunk ESC plus the letter a. -/
theorem parse_input_alt_prefix_witness :
    parse_input [27, 97] 2
      = ((parse_input [97] 1).1, KeyModifiers.ALT ||| (parse_input [97] 1).2) :=
  parse_input_alt_prefix 97 (by decide)

/-- Filtering after a multimap insertion: the nodes carrying key q after
emplacing (k, d) are the old ones, with (k, d) in front when k = q. -/
theorem filter_emplaceMulti (l : List (KeyAndModifiers × callback_data))
    (k q : KeyAndModifiers) (d : callback_data) :
    (emplaceMulti l k d).filter (fun e => e.1 = q)
      = if k = q then (k, d) :: l.filter (fun e => e.1 = q)
        else l.filter (fun e => e.1 = q) := by
  induction l with
  | nil => by_cases hkq : k = q <;> simp [emplaceMulti, List.filter_cons, hkq]
  | cons e rest ih =>
    by_cases hek : e.1 = k
    · by_cases hkq : k = q <;>
        simp [emplaceMulti, hek, List.filter_cons, hkq]
    · by_cases hkq : k = q <;> by_cases heq : e.1 = q <;>
        simp [emplaceMulti, hek, List.filter_cons, hkq, heq, ih] <;>
        simp_all
  
/-- Dispatch after one successful registration: the new callback is seen first
by dispatches of its exact key and the dispatch of any other key is unchanged. -/
theorem dispatch_add (st : HandlerState) (c : Nat) (cb : Nat)
    (key : KeyCode) (mods : Nat) (q : KeyAndModifiers)
    (hinit : st.is_init_succeed_ = true) :
    dispatch (add_key_press_callback st c (some cb) key mods).2.1 q
      = if (⟨key, mods⟩ : KeyAndModifiers) = q then
          (⟨(c + 1) % handleModulus, cb⟩ : callback_data) :: dispatch st q
        else dispatch st q := by
  simp only [add_key_press_callback, hinit, dispatch, get_new_handle]
  simp only [Bool.true_eq_false, if_false, if_neg]
  rw [filter_emplaceMulti]
  by_cases hkq : (⟨key, mods⟩ : KeyAndModifiers) = q <;> simp [hkq]

/-- C4 amended: main characterization of dispatch after a batch of adds. -/
theorem dispatch_addAll (ks : List KeyAndModifiers) (st : HandlerState) (c : Nat)
    (q : KeyAndModifiers) (hinit : st.is_init_succeed_ = true)
    (hc : c + ks.length < handleModulus) :
    (dispatch (addAll (st, c) ks).1 q).map callback_data.handle
      = (assignedHandles ks c q).reverse
        ++ (dispatch st q).map callback_data.handle := by
  induction ks generalizing st c with
  | nil => simp [addAll, assignedHandles]
  | cons k rest ih =>
    obtain ⟨kk, km⟩ := k
    have hc1 : c + 1 < handleModulus := by
      simp only [List.length_cons] at hc; omega
    have hmod : (c + 1) % handleModulus = c + 1 := Nat.mod_eq_of_lt hc1
    have hstep :
        add_key_press_callback st c (some 0) kk km
          = ((c + 1) % handleModulus,
             ⟨st.is_init_succeed_,
              emplaceMulti st.callbacks_ ⟨kk, km⟩
                ⟨(c + 1) % handleModulus, 0⟩⟩,
             (c + 1) % handleModulus) := by
      simp [add_key_press_callback, hinit, get_new_handle]
    simp only [addAll]
    have hinit' :
        (add_key_press_callback st c (some 0) kk km).2.1.is_init_succeed_ = true := by
      rw [hstep]; exact hinit
    have hcnt : (add_key_press_callback st c (some 0) kk km).2.2 = c + 1 := by
      rw [hstep]; exact hmod
    rw [hcnt]
    rw [ih _ (c + 1) hinit' (by simp only [List.length_cons] at hc; omega)]
    rw [dispatch_add st c 0 kk km q hinit]
    simp only [assignedHandles, List.reverse_append, hmod]
    by_cases hkq : (⟨kk, km⟩ : KeyAndModifiers) = q <;>
      simp [hkq, List.map_cons, List.append_assoc]

/-- C5: add_key_press_callback returns the invalid handle exactly when the
callback is empty or initialization did not succeed, and in that case state and
counter are both returned untouched. -/
theorem add_invalid_iff (st : HandlerState) (c : Nat) (callback : Option Nat)
    (key : KeyCode) (mods : Nat) (hc : c + 1 < handleModulus) :
    ((add_key_press_callback st c callback key mods).1 = invalid_handle ↔
      (callback = none ∨ st.is_init_succeed_ = false)) ∧
    ((callback = none ∨ st.is_init_succeed_ = false) →
      add_key_press_callback st c callback key mods = (invalid_handle, st, c)) := by
  have hmod : (c + 1) % handleModulus = c + 1 := Nat.mod_eq_of_lt hc
  rcases callback with _ | cb
  · simp [add_key_press_callback]
  · rcases hinit : st.is_init_succeed_ with _ | _
    · simp [add_key_press_callback, hinit]
    · simp [add_key_press_callback, hinit, get_new_handle, invalid_handle, hmod]

/-- Splitting lemma for the multimap insertion: emplacing (k, d) inserts exactly
one node, somewhere between the untouched nodes of the old container. -/
theorem emplaceMulti_split (l : List (KeyAndModifiers × callback_data))
    (k : KeyAndModifiers) (d : callback_data) :
    ∃ l1 l2, l = l1 ++ l2 ∧ emplaceMulti l k d = l1 ++ (k, d) :: l2 := by
  induction l with
  | nil => exact ⟨[], [], rfl, rfl⟩
  | cons e rest ih =>
    by_cases hek : e.1 = k
    · exact ⟨[], e :: rest, rfl, by simp [emplaceMulti, hek]⟩
    · obtain ⟨l1, l2, h1, h2⟩ := ih
      exact ⟨e :: l1, l2, by simp [h1], by simp [emplaceMulti, hek, h2]⟩

/-- C6: a successful registration returns a non-zero handle strictly above every
previously returned handle, advances the shared counter, and inserts exactly
one node, carrying that handle, between the untouched old nodes. -/
theorem add_handle_fresh (st : HandlerState) (c : Nat) (cb : Nat)
    (key : KeyCode) (mods : Nat) (prev : List Nat)
    (hinit : st.is_init_succeed_ = true) (hc : c + 1 < handleModulus)
    (hprev : ∀ p ∈ prev, p ≤ c) :
    (add_key_press_callback st c (some cb) key mods).1 ≠ invalid_handle ∧
    (∀ p ∈ prev, p < (add_key_press_callback st c (some cb) key mods).1) ∧
    (add_key_press_callback st c (some cb) key mods).2.2 = c + 1 ∧
    ∃ l1 l2, st.callbacks_ = l1 ++ l2 ∧
      (add_key_press_callback st c (some cb) key mods).2.1
        = ⟨st.is_init_succeed_,
           l1 ++ (⟨key, mods⟩,
                  ⟨(add_key_press_callback st c (some cb) key mods).1, cb⟩) :: l2⟩ := by
  have hmod : (c + 1) % handleModulus = c + 1 := Nat.mod_eq_of_lt hc
  have hstep :
      add_key_press_callback st c (some cb) key mods
        = ((c + 1) % handleModulus,
           ⟨st.is_init_succeed_,
            emplaceMulti st.callbacks_ ⟨key, mods⟩ ⟨(c + 1) % handleModulus, cb⟩⟩,
           (c + 1) % handleModulus) := by
    simp [add_key_press_callback, hinit, get_new_handle]
  rw [hstep]
  simp only [hmod]
  refine ⟨?_, ?_, ?_, ?_⟩
  · simp [invalid_handle]
  · intro p hp
    have := hprev p hp
    omega
  · trivial
  · obtain ⟨l1, l2, h1, h2⟩ :=
      emplaceMulti_split st.callbacks_ ⟨key, mods⟩ ⟨c + 1, cb⟩
    exact ⟨l1, l2, h1, by rw [h2]⟩

/-- Deletion scan touching no node: when no node carries the handle the
container is returned unchanged. -/
theorem eraseFirstHandle_of_not_mem (l : List (KeyAndModifiers × callback_data))
    (h : Nat) (hno : ∀ e ∈ l, e.2.handle ≠ h) :
    eraseFirstHandle l h = l := by
  induction l with
  | nil => rfl
  | cons e rest ih =>
    have he : e.2.handle ≠ h := hno e (by simp)
    simp [eraseFirstHandle, he, ih (fun x hx => hno x (by simp [hx]))]

/-- Deletion of a present handle: the first node carrying it goes away and
every other node stays. -/
theorem eraseFirstHandle_append (l1 l2 : List (KeyAndModifiers × callback_data))
    (e : KeyAndModifiers × callback_data) (h : Nat)
    (he : e.2.handle = h) (hl1 : ∀ x ∈ l1, x.2.handle ≠ h) :
    eraseFirstHandle (l1 ++ e :: l2) h = l1 ++ l2 := by
  induction l1 with
  | nil => simp [eraseFirstHandle, he]
  | cons x rest ih =>
    have hx : x.2.handle ≠ h := hl1 x (by simp)
    simp [eraseFirstHandle, hx, ih (fun y hy => hl1 y (by simp [hy]))]

/-- After erasing the handle from a container with pairwise distinct handles,
no remaining node carries it. -/
theorem mem_eraseFirstHandle_ne (l : List (KeyAndModifiers × callback_data))
    (h : Nat) (hnodup : (l.map (fun e => e.2.handle)).Nodup) :
    ∀ e ∈ eraseFirstHandle l h, e.2.handle ≠ h := by
  induction l with
  | nil => intro e he; simp [eraseFirstHandle] at he
  | cons x rest ih =>
    simp only [List.map_cons, List.nodup_cons] at hnodup
    by_cases hx : x.2.handle = h
    · intro e he
      rw [eraseFirstHandle, if_pos hx] at he
      intro hcontra
      exact hnodup.1 (hx ▸ hcontra ▸ List.mem_map_of_mem _ he)
    · intro e he
      rw [eraseFirstHandle, if_neg hx] at he
      rcases List.mem_cons.mp he with rfl | he'
      · exact hx
      · exact ih hnodup.2 e he'

/-- C7: deleting handle h removes exactly the node carrying h when one exists
(all other nodes unchanged), is a no-op when none does, and afterwards no
dispatch invokes a callback with handle h. The C++ function is noexcept and the
model is total, so the call always returns normally. -/
theorem delete_removes_exactly_handle (st : HandlerState) (h : Nat)
    (q : KeyAndModifiers)
    (hnodup : (st.callbacks_.map (fun e => e.2.handle)).Nodup) :
    ((∀ e ∈ st.callbacks_, e.2.handle ≠ h) →
      delete_key_press_callback st h = st) ∧
    (∀ l1 e l2, st.callbacks_ = l1 ++ e :: l2 → e.2.handle = h →
      delete_key_press_callback st h = ⟨st.is_init_succeed_, l1 ++ l2⟩) ∧
    (∀ d ∈ dispatch (delete_key_press_callback st h) q, d.handle ≠ h) := by
  refine ⟨?_, ?_, ?_⟩
  · intro hno
    show (⟨st.is_init_succeed_, eraseFirstHandle st.callbacks_ h⟩ : HandlerState) = st
    rw [eraseFirstHandle_of_not_mem st.callbacks_ h hno]
  · intro l1 e l2 hsplit he
    have hl1 : ∀ x ∈ l1, x.2.handle ≠ h := by
      rw [hsplit, List.map_append, List.map_cons] at hnodup
      have hdisj := (List.nodup_append.mp hnodup).2.2
      intro x hx hcontra
      exact hdisj (List.mem_map_of_mem _ hx)
        (by rw [hcontra, ← he]; exact List.mem_cons_self _ _)
    show (⟨st.is_init_succeed_, eraseFirstHandle st.callbacks_ h⟩ : HandlerState) = _
    rw [hsplit, eraseFirstHandle_append l1 l2 e h he hl1]
  · intro d hd
    simp only [delete_key_press_callback, dispatch, List.mem_map] at hd
    obtain ⟨e, he, rfl⟩ := hd
    exact mem_eraseFirstHandle_ne st.callbacks_ h hnodup e (List.mem_of_mem_filter he)

/-- C8: when the isatty check reports that stdin is not a terminal (and the
collaborator functions passed the null checks before it), construction returns
normally without throwing, with is_init_succeed_ still false and an empty
registry; on such a handler every add_key_press_callback call returns the
invalid handle and leaves state and counter untouched, whatever its callback,
key code and modifier arguments. -/
theorem construct_not_a_tty_degrades (env : UnixEnv) (install : Bool)
    (h1 : env.read_fn_null = false) (h2 : env.isatty_fn_null = false)
    (h3 : env.tcgetattr_fn_null = false) (h4 : env.tcsetattr_fn_null = false)
    (hatty : env.isatty_result = false) :
    unixConstruct env install = .ok ⟨false, []⟩ ∧
    (∀ (callback : Option Nat) (key : KeyCode) (mods c : Nat),
      add_key_press_callback ⟨false, []⟩ c callback key mods
        = (invalid_handle, ⟨false, []⟩, c)) := by
  constructor
  · simp [unixConstruct, h1, h2, h3, h4, hatty]
  · intro callback key mods c
    rcases callback with _ | cb <;> simp [add_key_press_callback]

/-- The static key map has no row for the END_OF_KEY_CODE_ENUM sentinel, so no
lookup can produce it. -/
theorem key_codes_map_find_ne_end_sentinel (s : List Nat) :
    key_codes_map_find s ≠ some KeyCode.END_OF_KEY_CODE_ENUM := by
  have hall : ∀ x ∈ DEFAULT_STATIC_KEY_MAP,
      x.inner_code ≠ KeyCode.END_OF_KEY_CODE_ENUM := by decide
  unfold key_codes_map_find
  cases hf : DEFAULT_STATIC_KEY_MAP.find? (fun e => e.terminal_sequence = s) with
  | none => simp
  | some e =>
    have he : e ∈ DEFAULT_STATIC_KEY_MAP := List.mem_of_find?_eq_some hf
    simp [hall e he]

/-- A key map lookup result with UNKNOWN default is never the
END_OF_KEY_CODE_ENUM sentinel. -/
theorem lookup_or_unknown_ne_end (s : List Nat) :
    (match key_codes_map_find s with
     | some k => k
     | none => KeyCode.UNKNOWN) ≠ KeyCode.END_OF_KEY_CODE_ENUM := by
  cases hf : key_codes_map_find s with
  | none => decide
  | some k =>
    intro hk
    apply key_codes_map_find_ne_end_sentinel s
    rw [hf]
    exact congrArg some hk

/-- The pair built by the CTRL fallback of parse_input never carries the
END_OF_KEY_CODE_ENUM sentinel in its first component. -/
theorem lookup_pair_fst_ne_end (s t : List Nat) (m : Nat) :
    ((match key_codes_map_find s with
      | some k => (k, m)
      | none =>
        ((match key_codes_map_find t with
          | some k => k
          | none => KeyCode.UNKNOWN), m)) : KeyCode × Nat).1
      ≠ KeyCode.END_OF_KEY_CODE_ENUM := by
  cases hf : key_codes_map_find s with
  | none => exact lookup_or_unknown_ne_end t
  | some k =>
    intro hk
    apply key_codes_map_find_ne_end_sentinel s
    rw [hf]
    exact congrArg some hk

set_option maxHeartbeats 2000000 in
/-- parse_input never produces the END_OF_KEY_CODE_ENUM sentinel: every branch
returns either a key map lookup result or UNKNOWN. -/
theorem parse_input_fst_ne_end_sentinel (buff : List Nat) (n : Nat) :
    (parse_input buff n).1 ≠ KeyCode.END_OF_KEY_CODE_ENUM := by
  unfold parse_input
  simp only []
  split_ifs
  all_goals
    first
      | exact lookup_pair_fst_ne_end _ _ _
      | exact lookup_or_unknown_ne_end _

/-- C9 amended: the reader loop never invokes a callback with the
END_OF_KEY_CODE_ENUM sentinel as the dispatched key code. -/
theorem processChunk_never_dispatches_end_sentinel
    (st : HandlerState) (buff : List Nat) (n : Nat) :
    ∀ x ∈ processChunk st buff n, x.1 ≠ KeyCode.END_OF_KEY_CODE_ENUM := by
  intro x hx
  simp only [processChunk, dispatch, List.mem_map] at hx
  obtain ⟨d, hd, rfl⟩ := hx
  exact parse_input_fst_ne_end_sentinel buff n

/-- Helper for C10: once exit_ is true no event resets it. -/
theorem stepExit_true (e : ExitEvent) : stepExit e true = true := by
  cases e with
  | construct b => rfl
  | destruct => rfl
  | on_signal old => simp [stepExit]

/-- Helper for C10: a fold of events from a true flag stays true. -/
theorem foldl_stepExit_true (events : List ExitEvent) :
    events.foldl (fun x e => stepExit e x) true = true := by
  induction events with
  | nil => rfl
  | cons e rest ih => simp [List.foldl_cons, stepExit_true, ih]

/-- Helper for C10: a fold of events containing a destruction ends true. -/
theorem foldl_stepExit_of_destruct (events : List ExitEvent) (x : Bool)
    (hmem : ExitEvent.destruct ∈ events) :
    events.foldl (fun y e => stepExit e y) x = true := by
  induction events generalizing x with
  | nil => cases hmem
  | cons e rest ih =>
    rcases List.mem_cons.mp hmem with rfl | hmem'
    · rw [List.foldl_cons]
      exact foldl_stepExit_true rest
    · exact ih _ hmem'

/-- C10: the process wide exit_ flag is monotone - construction leaves it
untouched, destruction and a SIGINT with a non-default prior disposition write
true, no event writes false, and once true it stays true; hence after any event
sequence containing a destruction the flag reads true, and a do-while reader
loop observing a true flag runs its body exactly once more. -/
theorem exit_flag_monotone :
    (∀ (x : Bool) (b : Bool), stepExit (.construct b) x = x) ∧
    (∀ x : Bool, stepExit .destruct x = true) ∧
    (∀ (x : Bool) (old : SigDisposition), old ≠ .dfl →
      stepExit (.on_signal old) x = true) ∧
    (∀ e : ExitEvent, stepExit e true = true) ∧
    (∀ events : List ExitEvent, ExitEvent.destruct ∈ events →
      runExit events = true) ∧
    (∀ (exitAt : Nat → Bool) (i fuel : Nat), (∀ j, exitAt j = true) →
      1 ≤ fuel → doWhileIterations exitAt i fuel = 1) := by
  refine ⟨fun x b => rfl, fun x => rfl, ?_, stepExit_true, ?_, ?_⟩
  · intro x old hold
    simp [stepExit, hold]
  · intro events hmem
    exact foldl_stepExit_of_destruct events false hmem
  · intro exitAt i fuel hall hfuel
    cases fuel with
    | zero => omega
    | succ fuel' => simp [doWhileIterations, hall i]

/-- C4 counterexample: registering two callbacks under the same
(key, modifiers) and dispatching it invokes the second registered callback
first - handles come back as [2, 1], not in registration order [1, 2]. -/
theorem dispatch_not_in_registration_order :
    (add_key_press_callback ⟨true, []⟩ 0 (some 11) KeyCode.A KeyModifiers.NONE).1
      = 1 ∧
    (add_key_press_callback
        (add_key_press_callback ⟨true, []⟩ 0 (some 11) KeyCode.A
          KeyModifiers.NONE).2.1
        (add_key_press_callback ⟨true, []⟩ 0 (some 11) KeyCode.A
          KeyModifiers.NONE).2.2
        (some 22) KeyCode.A KeyModifiers.NONE).1 = 2 ∧
    (dispatch
        (add_key_press_callback
          (add_key_press_callback ⟨true, []⟩ 0 (some 11) KeyCode.A
            KeyModifiers.NONE).2.1
          (add_key_press_callback ⟨true, []⟩ 0 (some 11) KeyCode.A
            KeyModifiers.NONE).2.2
          (some 22) KeyCode.A KeyModifiers.NONE).2.1
        ⟨KeyCode.A, KeyModifiers.NONE⟩).map callback_data.handle = [2, 1] := by
  decide

/-- Witness for the amended C4: three registrations (two under the A key), the
dispatch of the A key reports the A handles in reverse registration order. -/
theorem dispatch_addAll_witness :
    (dispatch (addAll (⟨true, []⟩, 0)
        [⟨KeyCode.A, KeyModifiers.NONE⟩, ⟨KeyCode.B, KeyModifiers.NONE⟩,
         ⟨KeyCode.A, KeyModifiers.NONE⟩]).1
      ⟨KeyCode.A, KeyModifiers.NONE⟩).map callback_data.handle
      = (assignedHandles
          [⟨KeyCode.A, KeyModifiers.NONE⟩, ⟨KeyCode.B, KeyModifiers.NONE⟩,
           ⟨KeyCode.A, KeyModifiers.NONE⟩] 0
          ⟨KeyCode.A, KeyModifiers.NONE⟩).reverse
        ++ (dispatch ⟨true, []⟩
            ⟨KeyCode.A, KeyModifiers.NONE⟩).map callback_data.handle :=
  dispatch_addAll _ _ _ _ rfl (by decide)

/-- Witness for C5 at an empty callback. -/
theorem add_invalid_iff_witness :
    ((add_key_press_callback ⟨true, []⟩ 0 none KeyCode.A KeyModifiers.NONE).1
        = invalid_handle ↔
      ((none : Option Nat) = none ∨
        (⟨true, []⟩ : HandlerState).is_init_succeed_ = false)) ∧
    (((none : Option Nat) = none ∨
        (⟨true, []⟩ : HandlerState).is_init_succeed_ = false) →
      add_key_press_callback ⟨true, []⟩ 0 none KeyCode.A KeyModifiers.NONE
        = (invalid_handle, ⟨true, []⟩, 0)) :=
  add_invalid_iff ⟨true, []⟩ 0 none KeyCode.A KeyModifiers.NONE (by decide)

/-- Witness for C6 at counter value 5 with previous handles 3 and 5. -/
theorem add_handle_fresh_witness :
    (add_key_press_callback ⟨true, []⟩ 5 (some 7) KeyCode.B
        KeyModifiers.NONE).1 ≠ invalid_handle ∧
    (∀ p ∈ [3, 5],
      p < (add_key_press_callback ⟨true, []⟩ 5 (some 7) KeyCode.B
            KeyModifiers.NONE).1) ∧
    (add_key_press_callback ⟨true, []⟩ 5 (some 7) KeyCode.B
        KeyModifiers.NONE).2.2 = 5 + 1 ∧
    ∃ l1 l2, (⟨true, []⟩ : HandlerState).callbacks_ = l1 ++ l2 ∧
      (add_key_press_callback ⟨true, []⟩ 5 (some 7) KeyCode.B
          KeyModifiers.NONE).2.1
        = ⟨(⟨true, []⟩ : HandlerState).is_init_succeed_,
           l1 ++ (⟨KeyCode.B, KeyModifiers.NONE⟩,
                  ⟨(add_key_press_callback ⟨true, []⟩ 5 (some 7) KeyCode.B
                      KeyModifiers.NONE).1, 7⟩) :: l2⟩ :=
  add_handle_fresh ⟨true, []⟩ 5 7 KeyCode.B KeyModifiers.NONE [3, 5] rfl
    (by decide) (by decide)

/-- Witness for C7 on a two entry registry with handles 1 and 2. -/
theorem delete_removes_exactly_handle_witness :
    ((∀ e ∈ (⟨true, [(⟨KeyCode.A, KeyModifiers.NONE⟩, ⟨1, 10⟩),
          (⟨KeyCode.A, KeyModifiers.NONE⟩, ⟨2, 20⟩)]⟩ :
          HandlerState).callbacks_, e.2.handle ≠ 1) →
      delete_key_press_callback
          ⟨true, [(⟨KeyCode.A, KeyModifiers.NONE⟩, ⟨1, 10⟩),
            (⟨KeyCode.A, KeyModifiers.NONE⟩, ⟨2, 20⟩)]⟩ 1
        = ⟨true, [(⟨KeyCode.A, KeyModifiers.NONE⟩, ⟨1, 10⟩),
            (⟨KeyCode.A, KeyModifiers.NONE⟩, ⟨2, 20⟩)]⟩) ∧
    (∀ l1 e l2,
      (⟨true, [(⟨KeyCode.A, KeyModifiers.NONE⟩, ⟨1, 10⟩),
          (⟨KeyCode.A, KeyModifiers.NONE⟩, ⟨2, 20⟩)]⟩ :
          HandlerState).callbacks_ = l1 ++ e :: l2 →
      e.2.handle = 1 →
      delete_key_press_callback
          ⟨true, [(⟨KeyCode.A, KeyModifiers.NONE⟩, ⟨1, 10⟩),
            (⟨KeyCode.A, KeyModifiers.NONE⟩, ⟨2, 20⟩)]⟩ 1
        = ⟨(⟨true, [(⟨KeyCode.A, KeyModifiers.NONE⟩, ⟨1, 10⟩),
              (⟨KeyCode.A, KeyModifiers.NONE⟩, ⟨2, 20⟩)]⟩ :
              HandlerState).is_init_succeed_, l1 ++ l2⟩) ∧
    (∀ d ∈ dispatch
        (delete_key_press_callback
          ⟨true, [(⟨KeyCode.A, KeyModifiers.NONE⟩, ⟨1, 10⟩),
            (⟨KeyCode.A, KeyModifiers.NONE⟩, ⟨2, 20⟩)]⟩ 1)
        ⟨KeyCode.A, KeyModifiers.NONE⟩, d.handle ≠ 1) :=
  delete_removes_exactly_handle
    ⟨true, [(⟨KeyCode.A, KeyModifiers.NONE⟩, ⟨1, 10⟩),
      (⟨KeyCode.A, KeyModifiers.NONE⟩, ⟨2, 20⟩)]⟩ 1
    ⟨KeyCode.A, KeyModifiers.NONE⟩ (by decide)

/-- Witness for C8 on a concrete environment whose isatty check fails. -/
theorem construct_not_a_tty_degrades_witness :
    unixConstruct ⟨false, false, false, false, false, false, false, false⟩ true
      = .ok ⟨false, []⟩ ∧
    (∀ (callback : Option Nat) (key : KeyCode) (mods c : Nat),
      add_key_press_callback ⟨false, []⟩ c callback key mods
        = (invalid_handle, ⟨false, []⟩, c)) :=
  construct_not_a_tty_degrades
    ⟨false, false, false, false, false, false, false, false⟩ true
    rfl rfl rfl rfl rfl

/-- C9 counterexample: a callback registered under the UNKNOWN sentinel is
invoked with UNKNOWN as the dispatched key code when an unrecognized chunk
arrives. -/
theorem processChunk_dispatches_unknown_sentinel :
    processChunk
        (add_key_press_callback ⟨true, []⟩ 0 (some 5) KeyCode.UNKNOWN
          KeyModifiers.NONE).2.1
        [200] 1
      = [(KeyCode.UNKNOWN, KeyModifiers.NONE, 1)] := by
  decide

/-- Witness for the amended C9 at a dispatched letter a event. -/
theorem processChunk_never_dispatches_end_sentinel_witness :
    ((KeyCode.A, KeyModifiers.NONE, 1) : KeyCode × Nat × Nat).1
      ≠ KeyCode.END_OF_KEY_CODE_ENUM :=
  processChunk_never_dispatches_end_sentinel
    ⟨true, [(⟨KeyCode.A, KeyModifiers.NONE⟩, ⟨1, 5⟩)]⟩ [97] 1
    (KeyCode.A, KeyModifiers.NONE, 1) (by decide)

/-- Witness for C10: a destruction inside an event sequence leaves the flag
true and a loop observing a true flag runs exactly one more iteration. -/
theorem exit_flag_monotone_witness :
    runExit [ExitEvent.construct true, ExitEvent.destruct,
        ExitEvent.construct false] = true ∧
    doWhileIterations (fun _ => true) 0 5 = 1 :=
  ⟨exit_flag_monotone.2.2.2.2.1 _ (by decide),
   exit_flag_monotone.2.2.2.2.2 _ 0 5 (fun _ => rfl) (by decide)⟩

end KeyboardHandler
